import Mathlib

/-!
Shallow embedding of `src/server.js`: a small Express service exposing CRUD
operations over a collection of book records persisted in a single JSON file
(`books.json`).  JavaScript runtime values appearing in request bodies and in
stored records are modelled by `JValue`; the store file is modelled by
`FileState`; each Express handler becomes a pure function from the incoming
request data and the current file state to the next file state and an HTTP
response (`Resp`).
-/

set_option autoImplicit false

namespace BookServer

/-- Model of the JavaScript values that can appear as a record field or a
request-body field.  `undef` models `undefined`, i.e. an absent body field
(JSON bodies cannot carry `undefined`, so destructuring an absent key yields
it).  JSON numbers are modelled as integers; `NaN` never arises from parsed
JSON bodies of this service's routes. -/
inductive JValue where
  | undef
  | null
  | bool (b : Bool)
  | num (n : Int)
  | str (s : String)
  deriving DecidableEq, Repr

/-- JavaScript truthiness: `undefined`, `null`, `false`, `0`, and `""` are
falsy; everything else here is truthy.  Used by the create handler's check
`!title || !author`. -/
def truthy : JValue → Bool
  | .undef => false
  | .null => false
  | .bool b => b
  | .num n => decide (n ≠ 0)
  | .str s => decide (s ≠ "")

/-- Model of `typeof v === 'boolean'`. -/
def typeofIsBoolean : JValue → Bool
  | .bool _ => true
  | _ => false

/-- Model of the strict comparison `v === true` used by the availability
filter. -/
def strictEqTrue : JValue → Bool
  | .bool true => true
  | _ => false

/-- A stored book record, as serialized in `books.json`: `{id, title, author,
available}`.  The id is a number; the other fields are arbitrary runtime
values, because the update handler copies whatever the body supplies without
any type check. -/
structure Book where
  id : Int
  title : JValue
  author : JValue
  available : JValue
  deriving DecidableEq, Repr

/-- Body of `POST /books` after `const { title, author, available } =
req.body`: each field is `undef` when the key is absent. -/
structure CreateBody where
  title : JValue
  author : JValue
  available : JValue
  deriving DecidableEq, Repr

/-- Body of `PUT /books/:id`.  The `id` field records whether the client sent
an `id` key; the handler destructures only `title`, `author` and `available`,
so this field is never read. -/
structure UpdateBody where
  id : JValue
  title : JValue
  author : JValue
  available : JValue
  deriving DecidableEq, Repr

/-- State of the store file `books.json`: missing, present with a parseable
JSON array of records, or present but unreadable/corrupt (any read of it
throws a non-`ENOENT` error). -/
inductive FileState where
  | absent
  | good (books : List Book)
  | corrupt
  deriving DecidableEq, Repr

/-- Model of `readBooks()`: read and parse the file; on `ENOENT` write `[]`
and return the empty collection; propagate any other failure (modelled as
`Except.error ()`).  The first component is the file state after the call. -/
def readBooks : FileState → FileState × Except Unit (List Book)
  | .absent => (.good [], .ok [])
  | .good books => (.good books, .ok books)
  | .corrupt => (.corrupt, .error ())

/-- Model of `writeBooks(books)`: overwrite the file with the full serialized
collection. -/
def writeBooks (books : List Book) (_st : FileState) : FileState :=
  .good books

/-- HTTP responses the five handlers can produce, each carrying the JSON
payload the source builds for it. -/
inductive Resp where
  | okBooks (books : List Book)
  | okBook (book : Book)
  | okDeleted (message : String) (book : Book)
  | created (book : Book)
  | badRequest (error : String)
  | notFound (error : String)
  | serverError (error : String)
  deriving DecidableEq, Repr

/-- HTTP status code of a response. -/
def Resp.status : Resp → Nat
  | .okBooks _ => 200
  | .okBook _ => 200
  | .okDeleted _ _ => 200
  | .created _ => 201
  | .badRequest _ => 400
  | .notFound _ => 404
  | .serverError _ => 500

/-- Model of JavaScript `parseInt(s)` (radix 10): skip leading whitespace,
read an optional sign, then consume the longest prefix of decimal digits,
ignoring everything after it; yield `none` (NaN) when no digit was consumed.
The hexadecimal `0x` special case of `parseInt` is not modelled; it does not
affect any route of this service for ids written in decimal. -/
def jsParseInt (s : String) : Option Int :=
  let cs := s.data.dropWhile (fun c => c.isWhitespace)
  let signAndRest : Bool × List Char :=
    match cs with
    | '-' :: rest => (true, rest)
    | '+' :: rest => (false, rest)
    | _ => (false, cs)
  let ds := signAndRest.2.takeWhile (fun c => c.isDigit)
  if ds.isEmpty then
    none
  else
    let n : Nat := ds.foldl (fun acc c => acc * 10 + (c.toNat - 48)) 0
    some (if signAndRest.1 then -(n : Int) else (n : Int))

/-- Model of `Math.max(...l)` for a nonempty list; the source only applies it
under a `books.length > 0` guard, so the empty case (`-Infinity` in
JavaScript) is never reached and its value here is immaterial. -/
def mathMax : List Int → Int
  | [] => 0
  | x :: xs => xs.foldl max x

/-- Model of `GET /books`: load the collection and return it; a storage fault
yields 500. -/
def getBooks (st : FileState) : FileState × Resp :=
  match readBooks st with
  | (st', .ok books) => (st', .okBooks books)
  | (st', .error _) => (st', .serverError "Failed to read books data")

/-- Model of `GET /books/available`: load the collection and return the
records with `available === true`; a storage fault yields 500. -/
def getAvailableBooks (st : FileState) : FileState × Resp :=
  match readBooks st with
  | (st', .ok books) =>
      (st', .okBooks (books.filter (fun book => strictEqTrue book.available)))
  | (st', .error _) => (st', .serverError "Failed to read books data")

/-- Model of `POST /books`: validate (`title` truthy, `author` truthy,
`available` of boolean type) before touching the store; then load, assign
`max(ids)+1` (or `1` on an empty collection), append, save, and answer 201
with the created record. -/
def postBooks (body : CreateBody) (st : FileState) : FileState × Resp :=
  if !truthy body.title || !truthy body.author || !typeofIsBoolean body.available then
    (st, .badRequest "Title, author, and available (boolean) are required")
  else
    match readBooks st with
    | (st', .ok books) =>
        let newId : Int :=
          if books.length > 0 then mathMax (books.map (fun book => book.id)) + 1 else 1
        let newBook : Book :=
          { id := newId, title := body.title, author := body.author,
            available := body.available }
        let books' := books ++ [newBook]
        (writeBooks books' st', .created newBook)
    | (st', .error _) => (st', .serverError "Failed to create book")

/-- One-pass equivalent of `findIndex(book => book.id === bookId)` followed by
in-place update of the found element: returns the updated collection together
with the updated record (`books[bookIndex]` after the mutation), or `none`
when no record matches (`bookIndex === -1`). -/
def updateById (bookId : Int) (f : Book → Book) : List Book → Option (List Book × Book)
  | [] => none
  | b :: bs =>
      if b.id = bookId then
        some (f b :: bs, f b)
      else
        match updateById bookId f bs with
        | none => none
        | some (bs', ub) => some (b :: bs', ub)

/-- One-pass equivalent of `findIndex(book => book.id === bookId)` followed by
`splice(bookIndex, 1)`: returns the remaining collection together with the
removed record, or `none` when no record matches. -/
def removeById (bookId : Int) : List Book → Option (List Book × Book)
  | [] => none
  | b :: bs =>
      if b.id = bookId then
        some (bs, b)
      else
        match removeById bookId bs with
        | none => none
        | some (bs', rb) => some (b :: bs', rb)

/-- The per-record mutation of the update handler: each of `title`, `author`,
`available` is overwritten exactly when the corresponding body field is not
`undefined`; the body's `id` field is never read. -/
def applyUpdate (body : UpdateBody) (b : Book) : Book :=
  let b1 := if body.title ≠ .undef then { b with title := body.title } else b
  let b2 := if body.author ≠ .undef then { b1 with author := body.author } else b1
  if body.available ≠ .undef then { b2 with available := body.available } else b2

/-- Model of `PUT /books/:id`: parse the path id (`NaN` yields 400), load,
locate the record (absence yields 404), overwrite only the supplied fields,
save, and answer 200 with the updated record. -/
def putBooks (idStr : String) (body : UpdateBody) (st : FileState) : FileState × Resp :=
  match jsParseInt idStr with
  | none => (st, .badRequest "Invalid book ID")
  | some bookId =>
      match readBooks st with
      | (st', .ok books) =>
          match updateById bookId (applyUpdate body) books with
          | none => (st', .notFound "Book not found")
          | some (books', updatedBook) =>
              (writeBooks books' st', .okBook updatedBook)
      | (st', .error _) => (st', .serverError "Failed to update book")

/-- Model of `DELETE /books/:id`: parse the path id (`NaN` yields 400), load,
locate the record (absence yields 404), remove it, save, and answer 200 with
a confirmation message and the removed record. -/
def deleteBooks (idStr : String) (st : FileState) : FileState × Resp :=
  match jsParseInt idStr with
  | none => (st, .badRequest "Invalid book ID")
  | some bookId =>
      match readBooks st with
      | (st', .ok books) =>
          match removeById bookId books with
          | none => (st', .notFound "Book not found")
          | some (books', deletedBook) =>
              (writeBooks books' st', .okDeleted "Book deleted successfully" deletedBook)
      | (st', .error _) => (st', .serverError "Failed to delete book")

/-- Uniqueness of ids, stated on a file state: a readable store has pairwise
distinct record ids (vacuous for a missing or corrupt file). -/
def goodNodup : FileState → Prop
  | .good bs => (bs.map Book.id).Nodup
  | _ => True

theorem le_foldl_max (xs : List Int) (x y : Int) (h : y ≤ x) :
    y ≤ xs.foldl max x := by
  induction xs generalizing x with
  | nil => exact h
  | cons z zs ih => exact ih (max x z) (le_trans h (le_max_left x z))

theorem mem_le_foldl_max (xs : List Int) (x y : Int) (h : y ∈ xs) :
    y ≤ xs.foldl max x := by
  induction xs generalizing x with
  | nil => cases h
  | cons z zs ih =>
    rcases List.mem_cons.mp h with rfl | hz
    · exact le_foldl_max zs (max x y) y (le_max_right x y)
    · exact ih (max x z) hz

theorem foldl_max_choice (xs : List Int) (x : Int) :
    xs.foldl max x = x ∨ xs.foldl max x ∈ xs := by
  induction xs generalizing x with
  | nil => exact Or.inl rfl
  | cons z zs ih =>
    rw [List.foldl_cons]
    rcases ih (max x z) with h | h
    · rw [h]
      rcases max_choice x z with h2 | h2
      · exact Or.inl h2
      · right; rw [h2]; exact List.mem_cons_self z zs
    · exact Or.inr (List.mem_cons_of_mem z h)

theorem mathMax_mem (l : List Int) (h : l ≠ []) : mathMax l ∈ l := by
  cases l with
  | nil => exact absurd rfl h
  | cons x xs =>
    rcases foldl_max_choice xs x with h1 | h1
    · rw [mathMax, h1]; exact List.mem_cons_self x xs
    · rw [mathMax]; exact List.mem_cons_of_mem x h1

theorem le_mathMax (l : List Int) (y : Int) (h : y ∈ l) : y ≤ mathMax l := by
  cases l with
  | nil => cases h
  | cons x xs =>
    rcases List.mem_cons.mp h with rfl | hx
    · exact le_foldl_max xs y y le_rfl
    · exact mem_le_foldl_max xs x y hx

theorem updateById_eq_none_iff (bid : Int) (f : Book → Book) (l : List Book) :
    updateById bid f l = none ↔ ∀ b ∈ l, b.id ≠ bid := by
  induction l with
  | nil => simp [updateById]
  | cons b bs ih =>
    by_cases h : b.id = bid
    · simp [updateById, h]
    · rcases hr : updateById bid f bs with _ | p
      · simp only [updateById, if_neg h, hr]
        constructor
        · intro _ b' hb'
          rcases List.mem_cons.mp hb' with rfl | hm
          · exact h
          · exact ih.mp hr b' hm
        · intro _; trivial
      · simp only [updateById, h, if_neg h, hr]
        constructor
        · intro hc; cases hc
        · intro hall
          exact absurd (ih.mpr fun b' hb' => hall b' (List.mem_cons_of_mem b hb')) (by simp [hr])

theorem removeById_eq_none_iff (bid : Int) (l : List Book) :
    removeById bid l = none ↔ ∀ b ∈ l, b.id ≠ bid := by
  induction l with
  | nil => simp [removeById]
  | cons b bs ih =>
    by_cases h : b.id = bid
    · simp [removeById, h]
    · rcases hr : removeById bid bs with _ | p
      · simp only [removeById, if_neg h, hr]
        constructor
        · intro _ b' hb'
          rcases List.mem_cons.mp hb' with rfl | hm
          · exact h
          · exact ih.mp hr b' hm
        · intro _; trivial
      · simp only [removeById, h, if_neg h, hr]
        constructor
        · intro hc; cases hc
        · intro hall
          exact absurd (ih.mpr fun b' hb' => hall b' (List.mem_cons_of_mem b hb')) (by simp [hr])

theorem updateById_append (bid : Int) (f : Book → Book) (pre post : List Book) (b : Book)
    (hpre : ∀ x ∈ pre, x.id ≠ bid) (hid : b.id = bid) :
    updateById bid f (pre ++ b :: post) = some (pre ++ f b :: post, f b) := by
  induction pre with
  | nil => simp [updateById, hid]
  | cons p ps ih =>
    have hp : p.id ≠ bid := hpre p (List.mem_cons_self p ps)
    have ihe := ih fun x hx => hpre x (List.mem_cons_of_mem p hx)
    simp [updateById, hp, ihe]

theorem removeById_append (bid : Int) (pre post : List Book) (b : Book)
    (hpre : ∀ x ∈ pre, x.id ≠ bid) (hid : b.id = bid) :
    removeById bid (pre ++ b :: post) = some (pre ++ post, b) := by
  induction pre with
  | nil => simp [removeById, hid]
  | cons p ps ih =>
    have hp : p.id ≠ bid := hpre p (List.mem_cons_self p ps)
    have ihe := ih fun x hx => hpre x (List.mem_cons_of_mem p hx)
    simp [removeById, hp, ihe]

theorem removeById_sublist (bid : Int) (l l' : List Book) (rb : Book)
    (h : removeById bid l = some (l', rb)) : l'.Sublist l := by
  induction l generalizing l' with
  | nil => simp [removeById] at h
  | cons b bs ih =>
    by_cases hb : b.id = bid
    · simp only [removeById, if_pos hb, Option.some.injEq, Prod.mk.injEq] at h
      rw [← h.1]
      exact List.Sublist.cons b (List.Sublist.refl bs)
    · rcases hr : removeById bid bs with _ | ⟨bs', rb'⟩
      · simp [removeById, hb, hr] at h
      · simp only [removeById, if_neg hb, hr, Option.some.injEq, Prod.mk.injEq] at h
        rw [← h.1]
        exact List.Sublist.cons₂ b (ih bs' (by rw [hr, h.2]))

theorem updateById_map_id (bid : Int) (f : Book → Book) (hf : ∀ b, (f b).id = b.id)
    (l l' : List Book) (ub : Book) (h : updateById bid f l = some (l', ub)) :
    l'.map Book.id = l.map Book.id := by
  induction l generalizing l' with
  | nil => simp [updateById] at h
  | cons b bs ih =>
    by_cases hb : b.id = bid
    · simp only [updateById, if_pos hb, Option.some.injEq, Prod.mk.injEq] at h
      rw [← h.1]
      simp [hf b]
    · rcases hr : updateById bid f bs with _ | ⟨bs', ub'⟩
      · simp [updateById, hb, hr] at h
      · simp only [updateById, if_neg hb, hr, Option.some.injEq, Prod.mk.injEq] at h
        rw [← h.1]
        simp [ih bs' (by rw [hr, h.2])]

theorem applyUpdate_id (body : UpdateBody) (b : Book) :
    (applyUpdate body b).id = b.id := by
  unfold applyUpdate
  split_ifs <;> rfl

theorem applyUpdate_title_absent (body : UpdateBody) (b : Book) (h : body.title = .undef) :
    (applyUpdate body b).title = b.title := by
  unfold applyUpdate
  split_ifs <;> simp_all

theorem applyUpdate_title_present (body : UpdateBody) (b : Book) (h : body.title ≠ .undef) :
    (applyUpdate body b).title = body.title := by
  unfold applyUpdate
  split_ifs <;> simp_all

theorem applyUpdate_author_absent (body : UpdateBody) (b : Book) (h : body.author = .undef) :
    (applyUpdate body b).author = b.author := by
  unfold applyUpdate
  split_ifs <;> simp_all

theorem applyUpdate_author_present (body : UpdateBody) (b : Book) (h : body.author ≠ .undef) :
    (applyUpdate body b).author = body.author := by
  unfold applyUpdate
  split_ifs <;> simp_all

theorem applyUpdate_available_absent (body : UpdateBody) (b : Book)
    (h : body.available = .undef) :
    (applyUpdate body b).available = b.available := by
  unfold applyUpdate
  split_ifs <;> simp_all

theorem applyUpdate_available_present (body : UpdateBody) (b : Book)
    (h : body.available ≠ .undef) :
    (applyUpdate body b).available = body.available := by
  unfold applyUpdate
  split_ifs <;> simp_all

theorem strictEqTrue_iff (v : JValue) : strictEqTrue v = true ↔ v = .bool true := by
  cases v with
  | undef => simp [strictEqTrue]
  | null => simp [strictEqTrue]
  | bool b => cases b <;> simp [strictEqTrue]
  | num n => simp [strictEqTrue]
  | str s => simp [strictEqTrue]

/-- C1: a create request passing validation, against any loaded collection,
appends the record `{id, title, author, available}` at the end, saves the full
collection, assigns id `1` on an empty collection and `max(existing ids) + 1`
otherwise, and answers 201 with the created record including its id. -/
theorem create_valid_appends_and_assigns_id
    (body : CreateBody) (books : List Book)
    (ht : truthy body.title = true) (ha : truthy body.author = true)
    (hb : typeofIsBoolean body.available = true) :
    ∃ nb : Book,
      postBooks body (.good books) = (.good (books ++ [nb]), .created nb) ∧
      nb.title = body.title ∧ nb.author = body.author ∧
      nb.available = body.available ∧
      (books = [] → nb.id = 1) ∧
      (books ≠ [] →
        nb.id - 1 ∈ books.map Book.id ∧ ∀ i ∈ books.map Book.id, i ≤ nb.id - 1) ∧
      Resp.status (Resp.created nb) = 201 := by
  refine ⟨{ id := if books.length > 0 then mathMax (books.map (fun book => book.id)) + 1 else 1,
            title := body.title, author := body.author, available := body.available },
          ?_, rfl, rfl, rfl, ?_, ?_, rfl⟩
  · simp [postBooks, ht, ha, hb, readBooks, writeBooks]
  · intro h
    subst h
    simp
  · intro h
    have hlen : books.length > 0 := List.length_pos.mpr h
    have hmapne : books.map (fun book => book.id) ≠ [] := by simpa using h
    constructor
    · simp only [if_pos hlen, add_sub_cancel_right]
      exact mathMax_mem _ hmapne
    · intro i hi
      simp only [if_pos hlen, add_sub_cancel_right]
      exact le_mathMax (books.map (fun book => book.id)) i hi

/-- Witness for C1 at a concrete valid body and the empty collection. -/
theorem create_valid_appends_and_assigns_id_witness :
    ∃ nb : Book,
      postBooks { title := .str "t", author := .str "a", available := .bool true }
          (.good []) =
        (.good ([] ++ [nb]), .created nb) ∧
      nb.title = .str "t" ∧ nb.author = .str "a" ∧
      nb.available = .bool true ∧
      (([] : List Book) = [] → nb.id = 1) ∧
      (([] : List Book) ≠ [] →
        nb.id - 1 ∈ ([] : List Book).map Book.id ∧
        ∀ i ∈ ([] : List Book).map Book.id, i ≤ nb.id - 1) ∧
      Resp.status (Resp.created nb) = 201 :=
  create_valid_appends_and_assigns_id
    { title := .str "t", author := .str "a", available := .bool true } []
    (by decide) (by decide) (by decide)

/-- C2: `GET /books/available` answers 200 with exactly the records whose
`available` field is strictly the boolean `true`, in the collection's order,
and leaves the collection unchanged. -/
theorem available_filter_exact (books : List Book) :
    ∃ avail : List Book,
      getAvailableBooks (.good books) = (.good books, .okBooks avail) ∧
      avail.Sublist books ∧
      (∀ b ∈ avail, b.available = .bool true) ∧
      (∀ b ∈ books, b.available = .bool true → b ∈ avail) ∧
      avail = books.filter (fun b => strictEqTrue b.available) ∧
      Resp.status (Resp.okBooks avail) = 200 := by
  refine ⟨books.filter (fun b => strictEqTrue b.available), rfl,
          List.filter_sublist books, ?_, ?_, rfl, rfl⟩
  · intro b hb
    exact (strictEqTrue_iff b.available).mp (List.mem_filter.mp hb).2
  · intro b hb hav
    exact List.mem_filter.mpr ⟨hb, (strictEqTrue_iff b.available).mpr hav⟩

/-- C3: a create request with an absent/falsy `title`, an absent/falsy
`author`, or an `available` that is not of boolean type is answered 400 and
the store is untouched: the file state is returned exactly as it was, so no
load or save happens (an absent file is not even initialized). -/
theorem create_invalid_rejected (body : CreateBody) (st : FileState)
    (h : ¬(truthy body.title = true ∧ truthy body.author = true ∧
           typeofIsBoolean body.available = true)) :
    postBooks body st =
      (st, .badRequest "Title, author, and available (boolean) are required") ∧
    Resp.status (postBooks body st).2 = 400 := by
  cases ht : truthy body.title <;> cases ha : truthy body.author <;>
    cases hb : typeofIsBoolean body.available <;>
    simp_all [postBooks, Resp.status]

/-- Witness for C3: `available` supplied as the string `"yes"` is rejected and
an absent store file stays absent. -/
theorem create_invalid_rejected_witness :
    postBooks { title := .str "t", author := .str "a", available := .str "yes" }
        .absent =
      (.absent, .badRequest "Title, author, and available (boolean) are required") ∧
    Resp.status
      (postBooks { title := .str "t", author := .str "a", available := .str "yes" }
        .absent).2 = 400 :=
  create_invalid_rejected
    { title := .str "t", author := .str "a", available := .str "yes" } .absent
    (by decide)

/-- C4: an update whose id matches an existing record overwrites exactly the
body fields that are present (not `undefined`) — including present-but-falsy
values such as `false`, `""` or an explicit `null` — keeps absent fields at
their existing values, saves the collection, and answers 200 with the updated
record. -/
theorem update_applies_exactly_present_fields
    (idStr : String) (body : UpdateBody) (bid : Int)
    (pre post : List Book) (b : Book)
    (hparse : jsParseInt idStr = some bid)
    (hpre : ∀ x ∈ pre, x.id ≠ bid) (hid : b.id = bid) :
    putBooks idStr body (.good (pre ++ b :: post)) =
      (.good (pre ++ applyUpdate body b :: post), .okBook (applyUpdate body b)) ∧
    (body.title = .undef → (applyUpdate body b).title = b.title) ∧
    (body.title ≠ .undef → (applyUpdate body b).title = body.title) ∧
    (body.author = .undef → (applyUpdate body b).author = b.author) ∧
    (body.author ≠ .undef → (applyUpdate body b).author = body.author) ∧
    (body.available = .undef → (applyUpdate body b).available = b.available) ∧
    (body.available ≠ .undef → (applyUpdate body b).available = body.available) ∧
    Resp.status (Resp.okBook (applyUpdate body b)) = 200 := by
  refine ⟨?_,
    applyUpdate_title_absent body b, applyUpdate_title_present body b,
    applyUpdate_author_absent body b, applyUpdate_author_present body b,
    applyUpdate_available_absent body b, applyUpdate_available_present body b, rfl⟩
  have hupd := updateById_append bid (applyUpdate body) pre post b hpre hid
  simp [putBooks, hparse, readBooks, hupd, writeBooks]

/-- Witness for C4: updating only `available` to the falsy value `false` on
record 1 applies that field and keeps `title`/`author`. -/
theorem update_applies_exactly_present_fields_witness :
    putBooks "1" { id := .undef, title := .undef, author := .undef, available := .bool false }
        (.good ([] ++ { id := 1, title := .str "Dune", author := .str "Herbert",
                        available := .bool true } :: [])) =
      (.good ([] ++ applyUpdate
          { id := .undef, title := .undef, author := .undef, available := .bool false }
          { id := 1, title := .str "Dune", author := .str "Herbert",
            available := .bool true } :: []),
       .okBook (applyUpdate
          { id := .undef, title := .undef, author := .undef, available := .bool false }
          { id := 1, title := .str "Dune", author := .str "Herbert",
            available := .bool true })) ∧
    ((JValue.undef : JValue) = .undef →
      (applyUpdate
          { id := .undef, title := .undef, author := .undef, available := .bool false }
          { id := 1, title := .str "Dune", author := .str "Herbert",
            available := .bool true }).title = .str "Dune") ∧
    ((JValue.undef : JValue) ≠ .undef →
      (applyUpdate
          { id := .undef, title := .undef, author := .undef, available := .bool false }
          { id := 1, title := .str "Dune", author := .str "Herbert",
            available := .bool true }).title = .undef) ∧
    ((JValue.undef : JValue) = .undef →
      (applyUpdate
          { id := .undef, title := .undef, author := .undef, available := .bool false }
          { id := 1, title := .str "Dune", author := .str "Herbert",
            available := .bool true }).author = .str "Herbert") ∧
    ((JValue.undef : JValue) ≠ .undef →
      (applyUpdate
          { id := .undef, title := .undef, author := .undef, available := .bool false }
          { id := 1, title := .str "Dune", author := .str "Herbert",
            available := .bool true }).author = .undef) ∧
    ((JValue.bool false : JValue) = .undef →
      (applyUpdate
          { id := .undef, title := .undef, author := .undef, available := .bool false }
          { id := 1, title := .str "Dune", author := .str "Herbert",
            available := .bool true }).available = .bool true) ∧
    ((JValue.bool false : JValue) ≠ .undef →
      (applyUpdate
          { id := .undef, title := .undef, author := .undef, available := .bool false }
          { id := 1, title := .str "Dune", author := .str "Herbert",
            available := .bool true }).available = .bool false) ∧
    Resp.status (Resp.okBook (applyUpdate
        { id := .undef, title := .undef, author := .undef, available := .bool false }
        { id := 1, title := .str "Dune", author := .str "Herbert",
          available := .bool true })) = 200 :=
  update_applies_exactly_present_fields "1"
    { id := .undef, title := .undef, author := .undef, available := .bool false } 1 [] []
    { id := 1, title := .str "Dune", author := .str "Herbert", available := .bool true }
    (by decide) (by decide) (by decide)

/-- C5: an update or delete whose parsed id matches no record answers 404 and
returns the file state exactly as loaded, so the persisted collection is
unchanged and nothing is saved. -/
theorem update_delete_missing_id_404
    (idStr : String) (body : UpdateBody) (bid : Int) (books : List Book)
    (hparse : jsParseInt idStr = some bid)
    (habs : ∀ b ∈ books, b.id ≠ bid) :
    putBooks idStr body (.good books) = (.good books, .notFound "Book not found") ∧
    deleteBooks idStr (.good books) = (.good books, .notFound "Book not found") ∧
    Resp.status (Resp.notFound "Book not found") = 404 := by
  have h1 := (updateById_eq_none_iff bid (applyUpdate body) books).mpr habs
  have h2 := (removeById_eq_none_iff bid books).mpr habs
  refine ⟨?_, ?_, rfl⟩
  · simp [putBooks, hparse, readBooks, h1]
  · simp [deleteBooks, hparse, readBooks, h2]

/-- Witness for C5: id 7 matches nothing in a one-record collection. -/
theorem update_delete_missing_id_404_witness :
    putBooks "7" { id := .undef, title := .undef, author := .undef, available := .undef }
        (.good [{ id := 1, title := .str "x", author := .str "y", available := .bool true }]) =
      (.good [{ id := 1, title := .str "x", author := .str "y", available := .bool true }],
       .notFound "Book not found") ∧
    deleteBooks "7"
        (.good [{ id := 1, title := .str "x", author := .str "y", available := .bool true }]) =
      (.good [{ id := 1, title := .str "x", author := .str "y", available := .bool true }],
       .notFound "Book not found") ∧
    Resp.status (Resp.notFound "Book not found") = 404 :=
  update_delete_missing_id_404 "7"
    { id := .undef, title := .undef, author := .undef, available := .undef } 7
    [{ id := 1, title := .str "x", author := .str "y", available := .bool true }]
    (by decide) (by decide)

/-- C6: a delete whose parsed id matches an existing record saves the original
collection with exactly that record removed, preserving the order of the
remaining records, and answers 200 with a confirmation message and the removed
record's prior content. -/
theorem delete_removes_exactly_matched_record
    (idStr : String) (bid : Int) (pre post : List Book) (b : Book)
    (hparse : jsParseInt idStr = some bid)
    (hpre : ∀ x ∈ pre, x.id ≠ bid) (hid : b.id = bid) :
    deleteBooks idStr (.good (pre ++ b :: post)) =
      (.good (pre ++ post), .okDeleted "Book deleted successfully" b) ∧
    Resp.status (Resp.okDeleted "Book deleted successfully" b) = 200 := by
  have hrem := removeById_append bid pre post b hpre hid
  refine ⟨?_, rfl⟩
  simp [deleteBooks, hparse, readBooks, hrem, writeBooks]

/-- Witness for C6: deleting id 2 from a three-record collection removes only
the middle record. -/
theorem delete_removes_exactly_matched_record_witness :
    deleteBooks "2"
        (.good ([{ id := 1, title := .str "a", author := .str "b", available := .bool true }] ++
          { id := 2, title := .str "c", author := .str "d", available := .bool false } ::
          [{ id := 3, title := .str "e", author := .str "f", available := .bool true }])) =
      (.good ([{ id := 1, title := .str "a", author := .str "b", available := .bool true }] ++
          [{ id := 3, title := .str "e", author := .str "f", available := .bool true }]),
       .okDeleted "Book deleted successfully"
         { id := 2, title := .str "c", author := .str "d", available := .bool false }) ∧
    Resp.status (Resp.okDeleted "Book deleted successfully"
      { id := 2, title := .str "c", author := .str "d", available := .bool false }) = 200 :=
  delete_removes_exactly_matched_record "2" 2
    [{ id := 1, title := .str "a", author := .str "b", available := .bool true }]
    [{ id := 3, title := .str "e", author := .str "f", available := .bool true }]
    { id := 2, title := .str "c", author := .str "d", available := .bool false }
    (by decide) (by decide) (by decide)

/-- C7 counterexample: the path id `"3.5"` does not denote an integer, yet the
claimed 400 response does not happen — `parseInt` yields `3`, the request
proceeds to record lookup, and the delete on an empty collection answers 404;
likewise `"12abc"` parses to `12`. -/
theorem nonint_id_reaches_lookup :
    jsParseInt "3.5" = some 3 ∧ jsParseInt "12abc" = some 12 ∧
    deleteBooks "3.5" (.good []) = (.good [], .notFound "Book not found") ∧
    Resp.status (deleteBooks "3.5" (.good [])).2 = 404 ∧
    Resp.status (deleteBooks "3.5" (.good [])).2 ≠ 400 ∧
    putBooks "3.5" { id := .undef, title := .undef, author := .undef, available := .undef }
        (.good []) = (.good [], .notFound "Book not found") := by
  decide

/-- C7 amended: an update or delete answers 400 "invalid id" with the
collection unchanged exactly when `parseInt` of the path id yields `NaN`
(no leading integer prefix, e.g. `"abc"`); ids with a numeric prefix such as
`"3.5"` or `"12abc"` parse to their leading integer and proceed to record
lookup. -/
theorem nan_id_yields_400 (idStr : String) (body : UpdateBody) (st : FileState)
    (hnan : jsParseInt idStr = none) :
    putBooks idStr body st = (st, .badRequest "Invalid book ID") ∧
    deleteBooks idStr st = (st, .badRequest "Invalid book ID") ∧
    Resp.status (Resp.badRequest "Invalid book ID") = 400 := by
  refine ⟨?_, ?_, rfl⟩ <;> simp [putBooks, deleteBooks, hnan]

/-- Witness for the amended C7 at the path id `"abc"`. -/
theorem nan_id_yields_400_witness :
    putBooks "abc" { id := .undef, title := .undef, author := .undef, available := .undef }
        .absent = (.absent, .badRequest "Invalid book ID") ∧
    deleteBooks "abc" .absent = (.absent, .badRequest "Invalid book ID") ∧
    Resp.status (Resp.badRequest "Invalid book ID") = 400 :=
  nan_id_yields_400 "abc"
    { id := .undef, title := .undef, author := .undef, available := .undef } .absent
    (by decide)

/-- C8: reading an absent store file is self-healing — the file is created
holding the empty collection and the empty collection is returned, so every
handler behaves on a missing file exactly as on an empty store; any other
read failure (corrupt file) propagates and the handler answers 500. -/
theorem absent_self_heals_corrupt_500
    (body : CreateBody) (ubody : UpdateBody) (idStr : String) (bid : Int)
    (hvalid : truthy body.title = true ∧ truthy body.author = true ∧
              typeofIsBoolean body.available = true)
    (hparse : jsParseInt idStr = some bid) :
    readBooks .absent = (.good [], .ok []) ∧
    getBooks .absent = getBooks (.good []) ∧
    getAvailableBooks .absent = getAvailableBooks (.good []) ∧
    postBooks body .absent = postBooks body (.good []) ∧
    putBooks idStr ubody .absent = putBooks idStr ubody (.good []) ∧
    deleteBooks idStr .absent = deleteBooks idStr (.good []) ∧
    readBooks .corrupt = (.corrupt, .error ()) ∧
    getBooks .corrupt = (.corrupt, .serverError "Failed to read books data") ∧
    Resp.status (getBooks .corrupt).2 = 500 ∧
    Resp.status (getAvailableBooks .corrupt).2 = 500 ∧
    Resp.status (postBooks body .corrupt).2 = 500 ∧
    Resp.status (putBooks idStr ubody .corrupt).2 = 500 ∧
    Resp.status (deleteBooks idStr .corrupt).2 = 500 := by
  obtain ⟨ht, ha, hb⟩ := hvalid
  refine ⟨rfl, rfl, rfl, ?_, ?_, ?_, rfl, rfl, rfl, rfl, ?_, ?_, ?_⟩
  · simp [postBooks, ht, ha, hb, readBooks]
  · simp [putBooks, hparse, readBooks]
  · simp [deleteBooks, hparse, readBooks]
  · simp [postBooks, ht, ha, hb, readBooks, Resp.status]
  · simp [putBooks, hparse, readBooks, Resp.status]
  · simp [deleteBooks, hparse, readBooks, Resp.status]

/-- Witness for C8 at a concrete valid body and the path id `"1"`. -/
theorem absent_self_heals_corrupt_500_witness :
    readBooks .absent = (.good [], .ok []) ∧
    getBooks .absent = getBooks (.good []) ∧
    getAvailableBooks .absent = getAvailableBooks (.good []) ∧
    postBooks { title := .str "t", author := .str "a", available := .bool true } .absent =
      postBooks { title := .str "t", author := .str "a", available := .bool true } (.good []) ∧
    putBooks "1" { id := .undef, title := .undef, author := .undef, available := .undef }
        .absent =
      putBooks "1" { id := .undef, title := .undef, author := .undef, available := .undef }
        (.good []) ∧
    deleteBooks "1" .absent = deleteBooks "1" (.good []) ∧
    readBooks .corrupt = (.corrupt, .error ()) ∧
    getBooks .corrupt = (.corrupt, .serverError "Failed to read books data") ∧
    Resp.status (getBooks .corrupt).2 = 500 ∧
    Resp.status (getAvailableBooks .corrupt).2 = 500 ∧
    Resp.status (postBooks { title := .str "t", author := .str "a", available := .bool true }
      .corrupt).2 = 500 ∧
    Resp.status (putBooks "1"
      { id := .undef, title := .undef, author := .undef, available := .undef } .corrupt).2 = 500 ∧
    Resp.status (deleteBooks "1" .corrupt).2 = 500 :=
  absent_self_heals_corrupt_500
    { title := .str "t", author := .str "a", available := .bool true }
    { id := .undef, title := .undef, author := .undef, available := .undef } "1" 1
    ⟨by decide, by decide, by decide⟩ (by decide)

/-- C9: on a collection with pairwise distinct ids, the collection left in the
store by a single create, update, or delete again has pairwise distinct ids. -/
theorem id_uniqueness_preserved
    (books : List Book) (body : CreateBody) (ubody : UpdateBody) (idStr : String)
    (hnd : (books.map Book.id).Nodup) :
    goodNodup (postBooks body (.good books)).1 ∧
    goodNodup (putBooks idStr ubody (.good books)).1 ∧
    goodNodup (deleteBooks idStr (.good books)).1 := by
  refine ⟨?_, ?_, ?_⟩
  · by_cases hc : (!truthy body.title || !truthy body.author ||
        !typeofIsBoolean body.available) = true
    · simp [postBooks, hc, goodNodup, hnd]
    · simp only [postBooks, if_neg hc, readBooks, writeBooks, goodNodup,
        List.map_append, List.map_cons, List.map_nil]
      cases books with
      | nil => simp
      | cons x xs =>
        rw [List.nodup_append]
        refine ⟨hnd, List.nodup_singleton _, ?_⟩
        intro i hi hmem
        have hle := le_mathMax ((x :: xs).map (fun book => book.id)) i hi
        have h2 : i = mathMax ((x :: xs).map (fun book => book.id)) + 1 := by
          simpa using hmem
        omega
  · rcases hp : jsParseInt idStr with _ | bid
    · simp [putBooks, hp, goodNodup, hnd]
    · rcases hu : updateById bid (applyUpdate ubody) books with _ | p
      · simp [putBooks, hp, readBooks, hu, goodNodup, hnd]
      · obtain ⟨bs', ub⟩ := p
        have hmap := updateById_map_id bid (applyUpdate ubody)
          (fun b => applyUpdate_id ubody b) books bs' ub hu
        simp [putBooks, hp, readBooks, hu, writeBooks, goodNodup, hmap, hnd]
  · rcases hp : jsParseInt idStr with _ | bid
    · simp [deleteBooks, hp, goodNodup, hnd]
    · rcases hr : removeById bid books with _ | p
      · simp [deleteBooks, hp, readBooks, hr, goodNodup, hnd]
      · obtain ⟨bs', rb⟩ := p
        have hsub := removeById_sublist bid books bs' rb hr
        have hnd' : (bs'.map Book.id).Nodup := hnd.sublist (hsub.map Book.id)
        simp [deleteBooks, hp, readBooks, hr, writeBooks, goodNodup, hnd']

/-- Witness for C9 on a two-record collection with distinct ids. -/
theorem id_uniqueness_preserved_witness :
    goodNodup (postBooks { title := .str "t", author := .str "a", available := .bool true }
      (.good [{ id := 1, title := .str "x", author := .str "y", available := .bool true },
              { id := 2, title := .str "u", author := .str "v", available := .bool false }])).1 ∧
    goodNodup (putBooks "1"
      { id := .undef, title := .undef, author := .undef, available := .bool false }
      (.good [{ id := 1, title := .str "x", author := .str "y", available := .bool true },
              { id := 2, title := .str "u", author := .str "v", available := .bool false }])).1 ∧
    goodNodup (deleteBooks "1"
      (.good [{ id := 1, title := .str "x", author := .str "y", available := .bool true },
              { id := 2, title := .str "u", author := .str "v", available := .bool false }])).1 :=
  id_uniqueness_preserved
    [{ id := 1, title := .str "x", author := .str "y", available := .bool true },
     { id := 2, title := .str "u", author := .str "v", available := .bool false }]
    { title := .str "t", author := .str "a", available := .bool true }
    { id := .undef, title := .undef, author := .undef, available := .bool false } "1"
    (by decide)

/-- C10: an update never changes the matched record's id — an `id` field in
the request body is ignored entirely (the handler reads only `title`,
`author`, `available`) — and every other record of the collection is left
unchanged. -/
theorem update_ignores_body_id_and_frames
    (idStr : String) (body : UpdateBody) (v : JValue) (st : FileState)
    (bid : Int) (pre post : List Book) (b : Book)
    (hparse : jsParseInt idStr = some bid)
    (hpre : ∀ x ∈ pre, x.id ≠ bid) (hid : b.id = bid) :
    putBooks idStr { body with id := v } st = putBooks idStr body st ∧
    (applyUpdate body b).id = b.id ∧
    putBooks idStr body (.good (pre ++ b :: post)) =
      (.good (pre ++ applyUpdate body b :: post), .okBook (applyUpdate body b)) := by
  refine ⟨rfl, applyUpdate_id body b, ?_⟩
  have hupd := updateById_append bid (applyUpdate body) pre post b hpre hid
  simp [putBooks, hparse, readBooks, hupd, writeBooks]

/-- Witness for C10: a body carrying `id: 99` produces the same result as one
without it, and the other record of the collection is untouched. -/
theorem update_ignores_body_id_and_frames_witness :
    putBooks "1"
        { ({ id := .undef, title := .str "New", author := .undef, available := .undef } :
            UpdateBody) with id := .num 99 }
        (.good [{ id := 1, title := .str "Old", author := .str "A", available := .bool true }]) =
      putBooks "1" { id := .undef, title := .str "New", author := .undef, available := .undef }
        (.good [{ id := 1, title := .str "Old", author := .str "A", available := .bool true }]) ∧
    (applyUpdate { id := .undef, title := .str "New", author := .undef, available := .undef }
      { id := 1, title := .str "Old", author := .str "A", available := .bool true }).id =
      ({ id := 1, title := .str "Old", author := .str "A", available := .bool true } : Book).id ∧
    putBooks "1" { id := .undef, title := .str "New", author := .undef, available := .undef }
        (.good ([{ id := 2, title := .str "Other", author := .str "B", available := .bool false }] ++
          { id := 1, title := .str "Old", author := .str "A", available := .bool true } :: [])) =
      (.good ([{ id := 2, title := .str "Other", author := .str "B", available := .bool false }] ++
          applyUpdate { id := .undef, title := .str "New", author := .undef, available := .undef }
            { id := 1, title := .str "Old", author := .str "A", available := .bool true } :: []),
       .okBook (applyUpdate
          { id := .undef, title := .str "New", author := .undef, available := .undef }
          { id := 1, title := .str "Old", author := .str "A", available := .bool true })) :=
  update_ignores_body_id_and_frames "1"
    { id := .undef, title := .str "New", author := .undef, available := .undef } (.num 99)
    (.good [{ id := 1, title := .str "Old", author := .str "A", available := .bool true }]) 1
    [{ id := 2, title := .str "Other", author := .str "B", available := .bool false }] []
    { id := 1, title := .str "Old", author := .str "A", available := .bool true }
    (by decide) (by decide) (by decide)

end BookServer
